import Mathlib

/-!
Verification of the CMP infrastructure check engine
(`checker.py`, `main.py`, `ssh_executor.py`).

The evaluation and aggregation logic of the repository is embedded as
executable Lean definitions and its specified behaviour is proved below.

Embedding conventions:
* Python `float` values are modelled by `ℚ` with exact arithmetic
  (the idealised real semantics the specification states its thresholds in).
* Python strings are Lean `String`s; the string manipulations that matter
  (`strip`, `split`, substring containment, slicing) are implemented here
  on `List Char`, matching CPython semantics on the relevant inputs.
* Messages produced with f-string interpolation of numeric payloads are
  modelled by an inductive `Msg` type whose constructors correspond 1-1 to
  the format strings in the source; constant message strings are carried
  verbatim via `Msg.text`.
* Timestamps (`datetime.now()`) are omitted from the result record: no
  claim mentions them and wall-clock time has no shallow embedding.
-/

namespace InfraCheck

/-- `class CheckStatus(Enum)` of `checker.py`: the four severity states.
The Korean enum payloads are recovered by `CheckStatus.label`. -/
inductive CheckStatus where
  | ok
  | warning
  | critical
  | unknown
deriving DecidableEq

/-- The string value each `CheckStatus` enum member carries in the source. -/
def CheckStatus.label : CheckStatus → String
  | .ok => "정상"
  | .warning => "경고"
  | .critical => "위험"
  | .unknown => "확인불가"

/-- Outcome messages.  Constant strings from the source are wrapped in
`text`; each remaining constructor models one f-string of the source with
its interpolated numeric payload:
`needsAttention v`  = "주의 필요 (v개)",
`immediateAction v` = "즉시 조치 필요 (v개)",
`nearThreshold t`   = "임계치 근접 (t)",
`overThreshold t`   = "임계치 초과 (t)",
`allNormal k n`     = "모두 정상 (k/n)",
`someIssue k n`     = "일부 이상 (k/n 정상)",
`manyIssue p`       = "다수 이상 (p개 문제)",
`mismatchCount n`   = "불일치 리소스 n개". -/
inductive Msg where
  | text (s : String)
  | needsAttention (v : ℚ)
  | immediateAction (v : ℚ)
  | nearThreshold (t : ℚ)
  | overThreshold (t : ℚ)
  | allNormal (okCount total : ℕ)
  | someIssue (okCount total : ℕ)
  | manyIssue (problems : ℕ)
  | mismatchCount (n : ℕ)
deriving DecidableEq

/-! ### String helpers (CPython semantics on `List Char`) -/

/-- ASCII whitespace, the fragment of `str.strip()`'s whitespace class
exercised by this program's command outputs. -/
def isSpaceChar (c : Char) : Bool :=
  c = ' ' || c = '\t' || c = '\n' || c = '\r' || c = '\x0b' || c = '\x0c'

/-- `str.strip()` on the character list. -/
def trimChars (l : List Char) : List Char :=
  ((l.dropWhile isSpaceChar).reverse.dropWhile isSpaceChar).reverse

/-- `str.strip()`. -/
def pyStrip (s : String) : String :=
  ⟨trimChars s.data⟩

/-- `str.split('\n')`: split at every newline, keeping empty segments
(`''.split('\n') == ['']`). -/
def splitNl : List Char → List (List Char)
  | [] => [[]]
  | c :: rest =>
      let r := splitNl rest
      if c = '\n' then [] :: r
      else
        match r with
        | h :: t => (c :: h) :: t
        | [] => [[c]]

/-- Does `pat` occur at the head of `l`? -/
def leadEq : List Char → List Char → Bool
  | [], _ => true
  | _ :: _, [] => false
  | p :: ps, c :: cs => p = c && leadEq ps cs

/-- Python's `pat in s` substring test: `pat` occurs somewhere in `l`
(the empty pattern occurs in every string). -/
def hasSub (pat : List Char) : List Char → Bool
  | [] => pat.isEmpty
  | c :: t => leadEq pat (c :: t) || hasSub pat t

/-- `str[:n]` character slicing. -/
def pyTake (s : String) (n : ℕ) : String :=
  ⟨s.data.take n⟩

/-- `str[-1:]`: the last character as a string (empty string if empty). -/
def pyLast (s : String) : String :=
  ⟨(s.data.reverse.take 1).reverse⟩

/-- `str.upper()` (ASCII). -/
def pyUpper (s : String) : String :=
  ⟨s.data.map Char.toUpper⟩

/-! ### `float(...)` parsing

`_evaluate_threshold` does `float(value.replace('%', '').strip())`.
We model the decimal/scientific fragment of Python's float grammar
(optional sign, digits with optional fractional part, optional exponent),
returning `none` where `float()` raises `ValueError`.  Non-finite literals
(`inf`, `nan`) and underscore separators fall outside the `ℚ` idealisation
and are likewise mapped to `none`. -/

/-- Numeric value of a digit run. -/
def digitsToNat (ds : List Char) : ℕ :=
  ds.foldl (fun a c => a * 10 + (c.toNat - 48)) 0

/-- Parse an unsigned mantissa `digits [. digits]` (at least one digit
somewhere); returns its value and the unread rest. -/
def parseMantissa (l : List Char) : Option (ℚ × List Char) :=
  let ip := l.takeWhile Char.isDigit
  let r1 := l.dropWhile Char.isDigit
  match r1 with
  | '.' :: r2 =>
      let fp := r2.takeWhile Char.isDigit
      let r3 := r2.dropWhile Char.isDigit
      if ip.isEmpty && fp.isEmpty then none
      else some ((digitsToNat ip : ℚ) + (digitsToNat fp : ℚ) / (10 ^ fp.length : ℚ), r3)
  | _ =>
      if ip.isEmpty then none else some ((digitsToNat ip : ℚ), r1)

/-- Parse an optional exponent part `e[+|-]digits`; the whole remainder
must be consumed. -/
def parseExponent (m : ℚ) : List Char → Option ℚ
  | [] => some m
  | e :: r1 =>
      if e = 'e' || e = 'E' then
        let (sgn, r2) : ℚ × List Char :=
          match r1 with
          | '+' :: r => (1, r)
          | '-' :: r => (-1, r)
          | r => (1, r)
        let ds := r2.takeWhile Char.isDigit
        let r3 := r2.dropWhile Char.isDigit
        if ds.isEmpty || !r3.isEmpty then none
        else some (m * (10 : ℚ) ^ ((sgn * digitsToNat ds : ℚ).num))
      else none

/-- `float(s)` on an already-stripped character list. -/
def parsePyFloat (l : List Char) : Option ℚ :=
  let (sgn, l1) : ℚ × List Char :=
    match l with
    | '+' :: r => (1, r)
    | '-' :: r => (-1, r)
    | r => (1, r)
  match parseMantissa l1 with
  | none => none
  | some (m, rest) =>
      match parseExponent m rest with
      | none => none
      | some v => some (sgn * v)

/-! ### `_evaluate_threshold` -/

/-- The `zero_is_ok` allow-list of `_evaluate_threshold`. -/
def zeroIsOk : List String :=
  ["OS-005", "K8S-008", "K8S-009", "SVC-004",
   "SVC-006", "SVC-007", "SVC-008", "SVC-010"]

/-- The body of `_evaluate_threshold` after the numeric parse succeeded
with value `v`. -/
def thresholdDecision (v : ℚ) (threshold : ℚ) (checkId : String) :
    CheckStatus × Msg :=
  if checkId ∈ zeroIsOk then
    if v = 0 then (.ok, .text "정상")
    else if v ≤ 3 then (.warning, .needsAttention v)
    else (.critical, .immediateAction v)
  else
    if v < threshold * 0.8 then (.ok, .text "정상 범위")
    else if v < threshold then (.warning, .nearThreshold threshold)
    else (.critical, .overThreshold threshold)

/-- `CMPInfraChecker._evaluate_threshold`: strip every `'%'`, strip
whitespace, parse as float; on `ValueError` return UNKNOWN with the
parse-failure message. -/
def evaluateThreshold (value : String) (threshold : ℚ) (checkId : String) :
    CheckStatus × Msg :=
  match parsePyFloat (trimChars (value.data.filter (fun c => c ≠ '%'))) with
  | some v => thresholdDecision v threshold checkId
  | none => (.unknown, .text "값 파싱 실패")

/-! ### `_evaluate_expected` -/

/-- The record list of `_evaluate_expected`:
`[l.strip() for l in output.strip().split('\n') if l.strip()]`. -/
def expectedLines (output : String) : List (List Char) :=
  ((splitNl (trimChars output.data)).map trimChars).filter (fun l => !l.isEmpty)

/-- `CMPInfraChecker._evaluate_expected`. -/
def evaluateExpected (output : String) (expected : String) :
    CheckStatus × Msg :=
  if output = "" ∨ output = "N/A" then (.unknown, .text "데이터 없음")
  else
    let lines := expectedLines output
    if lines.isEmpty then (.unknown, .text "점검 대상 없음")
    else
      let total := lines.length
      let okCount := (lines.filter (fun l => hasSub expected.data l)).length
      if okCount = total then (.ok, .allNormal okCount total)
      else if (okCount : ℚ) ≥ (total : ℚ) * 0.7 then
        (.warning, .someIssue okCount total)
      else (.critical, .manyIssue (total - okCount))


/-! ### The result record and the summary (`CheckResult`, `get_summary`) -/

/-- `@dataclass CheckResult` of `checker.py`.  The `timestamp` field
(wall-clock creation time) is omitted; see the header note. -/
structure CheckResult where
  check_id : String
  name : String
  category : String
  subcategory : String
  description : String
  status : CheckStatus
  value : String
  threshold : Option ℚ
  unit : String
  message : Msg
  target : String
  severity : String
deriving DecidableEq

/-- One per-status count record, `{'ok': 0, 'warning': 0, 'critical': 0,
'unknown': 0}` in the source. -/
structure StatusCounts where
  ok : ℕ
  warning : ℕ
  critical : ℕ
  unknown : ℕ
deriving DecidableEq

/-- The zero-initialised count record. -/
def StatusCounts.zero : StatusCounts := ⟨0, 0, 0, 0⟩

/-- The increment performed by the grouping loops of `get_summary`:
`if r.status == OK: ... elif WARNING: ... elif CRITICAL: ... else:` —
the final `else` catches exactly UNKNOWN since the enum has four members. -/
def StatusCounts.incr (c : StatusCounts) : CheckStatus → StatusCounts
  | .ok => { c with ok := c.ok + 1 }
  | .warning => { c with warning := c.warning + 1 }
  | .critical => { c with critical := c.critical + 1 }
  | .unknown => { c with unknown := c.unknown + 1 }

/-- Sum of the four per-status counts of a group record. -/
def sum4 (c : StatusCounts) : ℕ :=
  c.ok + c.warning + c.critical + c.unknown

/-- One step of the grouping loops: ensure `key` is present (initialised
to zeros) and increment its field for status `s`.  A Python dict keyed by
strings in insertion order is modelled as an association list. -/
def bumpGroup (m : List (String × StatusCounts)) (key : String)
    (s : CheckStatus) : List (String × StatusCounts) :=
  match m with
  | [] => [(key, StatusCounts.zero.incr s)]
  | (k, c) :: rest =>
      if k = key then (k, c.incr s) :: rest
      else (k, c) :: bumpGroup rest key s

/-- A whole grouping loop of `get_summary`, with `f` the grouping key
(`r.subcategory` for `by_environment`, `r.category` for `by_category`). -/
def groupCounts (f : CheckResult → String) (results : List CheckResult) :
    List (String × StatusCounts) :=
  results.foldl (fun m r => bumpGroup m (f r) r.status) []

/-- Dict lookup in the association-list model. -/
def findCounts (m : List (String × StatusCounts)) (key : String) :
    Option StatusCounts :=
  match m with
  | [] => none
  | (k, c) :: rest => if k = key then some c else findCounts rest key

/-- Sum of all group totals of a grouping dict. -/
def totalMass (m : List (String × StatusCounts)) : ℕ :=
  (m.map (fun p => sum4 p.2)).sum

/-- `sum(1 for r in self.results if r.status == s)`. -/
def countStatus (results : List CheckResult) (s : CheckStatus) : ℕ :=
  (results.filter (fun r => r.status = s)).length

/-- The summary dict built by `get_summary` when the result list is
nonempty. -/
structure Summary where
  total : ℕ
  ok : ℕ
  warning : ℕ
  critical : ℕ
  unknown : ℕ
  by_environment : List (String × StatusCounts)
  by_category : List (String × StatusCounts)
deriving DecidableEq

/-- `CMPInfraChecker.get_summary`.  `none` models the bare `{}` returned
for an empty result list (`if not self.results: return {}`): that dict has
none of the summary keys, unlike a zero-count `Summary`. -/
def get_summary (results : List CheckResult) : Option Summary :=
  if results.isEmpty then none
  else some
    { total := results.length
      ok := countStatus results .ok
      warning := countStatus results .warning
      critical := countStatus results .critical
      unknown := countStatus results .unknown
      by_environment := groupCounts (fun r => r.subcategory) results
      by_category := groupCounts (fun r => r.category) results }

/-! ### The exit-code tail of `main.py`

After `run_all_checks`, `main()` either takes the `--json` branch — which
prints and `return`s, so the interpreter exits 0 regardless of outcomes —
or falls through to the summary printing and the final
`sys.exit(2 | 1 | 0)` branch.  On an empty outcome list `get_summary`
returned `{}`, and the unguarded `summary['total']` / `summary['critical']`
subscripts raise `KeyError`; `none` models that uncaught-exception exit.
Report generation is an external collaborator and is assumed to return. -/
def mainExitCode (jsonMode : Bool) (results : List CheckResult) : Option ℕ :=
  if jsonMode then some 0
  else
    match get_summary results with
    | none => none
    | some s => some (if 0 < s.critical then 2 else if 0 < s.warning then 1 else 0)

/-! ### Concrete sample data for closed witness statements -/

/-- A sample outcome with the given environment, category and status. -/
def sampleResult (env cat : String) (st : CheckStatus) : CheckResult :=
  { check_id := "X-001", name := "sample", category := cat, subcategory := env,
    description := "", status := st, value := "", threshold := none,
    unit := "", message := .text "", target := "", severity := "medium" }

/-- A small outcome list covering all four statuses and two groups per
grouping key. -/
def sampleResults : List CheckResult :=
  [sampleResult "DEV" "OS" .ok, sampleResult "DEV" "OS" .warning,
   sampleResult "STG" "Kubernetes" .critical, sampleResult "STG" "OS" .unknown]

/-- The summary `get_summary` computes for `sampleResults`. -/
def sampleSummary : Summary :=
  { total := 4, ok := 1, warning := 1, critical := 1, unknown := 1,
    by_environment := [("DEV", ⟨1, 1, 0, 0⟩), ("STG", ⟨0, 0, 1, 1⟩)],
    by_category := [("OS", ⟨1, 1, 0, 1⟩), ("Kubernetes", ⟨0, 0, 1, 0⟩)] }

/-- A single CRITICAL outcome. -/
def critSample : CheckResult := sampleResult "PRD" "OS" .critical

/-! ### The remote executor and the inventory (`ssh_executor.py`)

`execute_ssh` wraps a real `subprocess.run` of the `ssh` client; for the
embedding the executor is an oracle: a record of pure functions giving, for
every invocation, the `ConnectionResult` (resp. probe outcome) the
transport would produce.  The checker is then a deterministic function of
this oracle, the inventory, and the check catalog. -/

/-- `@dataclass ConnectionResult` of `ssh_executor.py`.  The
`execution_time` field (wall-clock) is omitted. -/
structure ConnectionResult where
  success : Bool
  host : String
  ip : String
  stdout : String := ""
  stderr : String := ""
  return_code : Int := -1
  error_message : String := ""
deriving DecidableEq

/-- The executor capability consumed by `CMPInfraChecker`:
`execute_ssh(host, ip, command, port)`, `check_tcp_port(ip, port)` and
`check_http_status(url)` (returning `(success, status_code)`). -/
structure Exec where
  execute_ssh : String → String → String → ℕ → ConnectionResult
  check_tcp_port : String → ℕ → Bool
  check_http_status : String → Bool × ℕ

/-- One entry of a `services:` list (`service.get('name', ...)`,
`service.get('port', ...)`; the `.get` defaults are assumed resolved by
the external Inventory Provider). -/
structure Service where
  name : String
  port : ℕ
deriving DecidableEq

/-- One master/worker node entry of a cluster (`name`, `hostname`, `ip`,
`ssh_port` keys, as read by `get_all_servers`/`check_k8s_cluster`). -/
structure ClusterNode where
  name : String
  hostname : String
  ip : String
  ssh_port : ℕ
deriving DecidableEq

/-- One `databases:` entry of a cluster. -/
structure DatabaseHost where
  name : String
  hostname : String
  ip : String
  services : List Service
deriving DecidableEq

/-- One cluster section of the inventory.  `env = none` models a missing
`env` key (`cluster.get('env', cluster_key.upper())`). -/
structure Cluster where
  env : Option String
  masters : List ClusterNode
  workers : List ClusterNode
  databases : List DatabaseHost
deriving DecidableEq

/-- One `cicd_servers:` entry. -/
structure CicdServer where
  name : String
  hostname : String
  ip : String
  services : List Service
deriving DecidableEq

/-- The inventory as consumed by the checker.  `none` for a cluster slot
models `inventory.get(key, {})` being falsy — the key absent (or its value
an empty dict), which `run_all_checks` silently skips. -/
structure Inventory where
  dev_cluster : Option Cluster
  stg_cluster : Option Cluster
  prd_cluster : Option Cluster
  cicd_servers : List (String × CicdServer)

/-- `RemoteExecutor.get_cluster_info`: `self.inventory.get(cluster_key, {})`
restricted to the three keys the checker ever passes. -/
def get_cluster_info (inv : Inventory) (key : String) : Option Cluster :=
  if key = "dev_cluster" then inv.dev_cluster
  else if key = "stg_cluster" then inv.stg_cluster
  else if key = "prd_cluster" then inv.prd_cluster
  else none

/-- One check definition from the catalog (`check_items.yaml` entry), with
the `.get` defaults of the call sites already resolved:
`threshold = check.get('threshold')`, `unit = check.get('unit', '')`,
`expected = check.get('expected')` (`none` ≙ absent/None),
`check_type = check.get('check_type', '')`,
`severity = check.get('severity', 'medium')`. -/
structure CheckDef where
  id : String
  name : String
  description : String
  command : String
  threshold : Option ℚ := none
  unit : String := ""
  expected : Option String := none
  check_type : String := ""
  severity : String := "medium"
deriving DecidableEq

/-- The check catalog sections used by the checker. -/
structure ChecksConfig where
  os_checks : List CheckDef
  k8s_cluster_checks : List CheckDef
  k8s_service_checks : List CheckDef
deriving DecidableEq

/-! ### The per-check runner functions of `checker.py` (real mode) -/

/-- Python `a or b` on strings: `a` if non-empty, else `b`.  Used for
`conn_result.error_message or "<default>"`. -/
def orDefault (a b : String) : String :=
  if a = "" then b else a

/-- `CMPInfraChecker._run_os_check`. -/
def run_os_check (ex : Exec) (check : CheckDef) (hostname ip : String)
    (port : ℕ) (server_name category env_name : String) : CheckResult :=
  let conn := ex.execute_ssh hostname ip check.command port
  if conn.success = false then
    { check_id := check.id, name := check.name, category := category,
      subcategory := env_name, description := check.description,
      status := .unknown, value := "N/A", threshold := check.threshold,
      unit := check.unit,
      message := .text (orDefault conn.error_message "연결 실패"),
      target := server_name, severity := check.severity }
  else
    let value := conn.stdout
    let sm : CheckStatus × Msg :=
      match check.threshold with
      | some t => evaluateThreshold value t check.id
      | none => (.ok, .text "정보 수집 완료")
    { check_id := check.id, name := check.name, category := category,
      subcategory := env_name, description := check.description,
      status := sm.1, value := value, threshold := check.threshold,
      unit := check.unit, message := sm.2,
      target := server_name, severity := check.severity }

/-- `CMPInfraChecker._run_k8s_check`.  `if expected:` is Python truthiness:
a present, non-empty `expected` selects pattern evaluation, otherwise a
present threshold selects threshold evaluation. -/
def run_k8s_check (ex : Exec) (check : CheckDef) (hostname ip : String)
    (port : ℕ) (env_name : String) : CheckResult :=
  let conn := ex.execute_ssh hostname ip check.command port
  if conn.success = false then
    { check_id := check.id, name := check.name, category := "Kubernetes",
      subcategory := env_name, description := check.description,
      status := .unknown, value := "N/A", threshold := check.threshold,
      unit := check.unit,
      message := .text (orDefault conn.error_message "kubectl 실행 실패"),
      target := env_name ++ " Cluster", severity := check.severity }
  else
    let value := conn.stdout
    let byThreshold : CheckStatus × Msg :=
      match check.threshold with
      | some t => evaluateThreshold value t check.id
      | none => (.ok, .text "정보 수집 완료")
    let sm : CheckStatus × Msg :=
      match check.expected with
      | some e => if e = "" then byThreshold else evaluateExpected value e
      | none => byThreshold
    { check_id := check.id, name := check.name, category := "Kubernetes",
      subcategory := env_name, description := check.description,
      status := sm.1,
      value := if value = "" then "N/A" else pyTake value 200,
      threshold := check.threshold, unit := check.unit, message := sm.2,
      target := env_name ++ " Cluster", severity := check.severity }

/-- `CMPInfraChecker._run_svc_check`.  For `check_type == 'replica_match'`
any (non-whitespace) output is itself the list of problem lines; the
threshold path substitutes `'0'` for an empty output (`value or '0'`). -/
def run_svc_check (ex : Exec) (check : CheckDef) (hostname ip : String)
    (port : ℕ) (env_name : String) : CheckResult :=
  let conn := ex.execute_ssh hostname ip check.command port
  if conn.success = false then
    { check_id := check.id, name := check.name, category := "Services",
      subcategory := env_name, description := check.description,
      status := .unknown, value := "N/A", threshold := check.threshold,
      unit := check.unit,
      message := .text (orDefault conn.error_message "점검 실패"),
      target := env_name ++ " Services", severity := check.severity }
  else
    let value := conn.stdout
    let smv : CheckStatus × Msg × String :=
      if check.check_type = "replica_match" then
        if value ≠ "" ∧ trimChars value.data ≠ [] then
          let issues := splitNl (trimChars value.data)
          (if issues.length ≤ 3 then .warning else .critical,
           .mismatchCount issues.length, value)
        else (.ok, .text "모든 리소스 정상", "모두 정상")
      else
        match check.threshold with
        | some t =>
            let sm := evaluateThreshold (if value = "" then "0" else value)
              t check.id
            (sm.1, sm.2, value)
        | none => (.ok, .text "정보 수집 완료", value)
    { check_id := check.id, name := check.name, category := "Services",
      subcategory := env_name, description := check.description,
      status := smv.1,
      value := if smv.2.2 = "" then "0" else pyTake smv.2.2 200,
      threshold := check.threshold, unit := check.unit, message := smv.2.1,
      target := env_name ++ " Services", severity := check.severity }

/-! ### Demo-mode runner functions (static tables of `checker.py`) -/

/-- `CMPInfraChecker._run_demo_os_check`. -/
def run_demo_os_check (check : CheckDef)
    (server_name category env_name : String) : CheckResult :=
  let vsm : String × CheckStatus × Msg :=
    if check.id = "OS-001" then ("45", .ok, .text "정상 범위")
    else if check.id = "OS-002" then ("62.5", .ok, .text "정상 범위")
    else if check.id = "OS-003" then ("23", .ok, .text "정상 범위")
    else if check.id = "OS-004" then
      ("up 15 days, 4 hours", .ok, .text "정상 가동 중")
    else if check.id = "OS-005" then ("0", .ok, .text "좀비 프로세스 없음")
    else if check.id = "OS-006" then ("1.25", .ok, .text "정상 범위")
    else if check.id = "OS-007" then ("12.3", .ok, .text "정상 범위")
    else if check.id = "OS-008" then ("3456", .ok, .text "정상 범위")
    else if check.id = "OS-009" then ("128", .ok, .text "정상 범위")
    else if check.id = "OS-010" then
      ("5.15.0-91-generic", .ok, .text "커널 정보 확인")
    else ("N/A", .unknown, .text "데모 데이터 없음")
  { check_id := check.id, name := check.name, category := category,
    subcategory := env_name, description := check.description,
    status := vsm.2.1, value := vsm.1, threshold := check.threshold,
    unit := check.unit, message := vsm.2.2, target := server_name,
    severity := check.severity }

/-- `CMPInfraChecker._run_demo_k8s_check`. -/
def run_demo_k8s_check (check : CheckDef) (env_name : String) : CheckResult :=
  let vsm : String × CheckStatus × Msg :=
    if check.id = "K8S-001" then
      ("master-01:Ready\nmaster-02:Ready\nmaster-03:Ready\nworker-01:Ready\nworker-02:Ready\nworker-03:Ready",
       .ok, .text "모두 정상 (6/6)")
    else if check.id = "K8S-002" then
      ("master-01:32%\nworker-01:45%\nworker-02:38%\nworker-03:52%",
       .ok, .text "모든 노드 정상")
    else if check.id = "K8S-003" then
      ("master-01:58%\nworker-01:62%\nworker-02:55%\nworker-03:71%",
       .ok, .text "모든 노드 정상")
    else if check.id = "K8S-004" then
      ("coredns-xxx:Running\netcd-master:Running\nkube-apiserver:Running\nkube-scheduler:Running",
       .ok, .text "모든 시스템 Pod 정상")
    else if check.id = "K8S-005" then
      ("etcd-master-01:Running\netcd-master-02:Running\netcd-master-03:Running",
       .ok, .text "etcd 클러스터 정상")
    else if check.id = "K8S-006" then
      ("pv-data-01:Bound\npv-data-02:Bound", .ok, .text "모든 PV Bound")
    else if check.id = "K8S-007" then
      ("pvc-01:Bound\npvc-02:Bound", .ok, .text "모든 PVC Bound")
    else if check.id = "K8S-008" then
      ("5", .ok, .text "Warning 이벤트 정상 범위")
    else if check.id = "K8S-009" then ("0", .ok, .text "NotReady 노드 없음")
    else if check.id = "K8S-010" then ("v1.28.4", .ok, .text "버전 정보 확인")
    else ("N/A", .unknown, .text "데모 데이터 없음")
  { check_id := check.id, name := check.name, category := "Kubernetes",
    subcategory := env_name, description := check.description,
    status := vsm.2.1, value := vsm.1, threshold := check.threshold,
    unit := check.unit, message := vsm.2.2,
    target := env_name ++ " Cluster", severity := check.severity }

/-- `CMPInfraChecker._run_demo_svc_check` (`value if value else "모두 정상"`
in the value slot). -/
def run_demo_svc_check (check : CheckDef) (env_name : String) : CheckResult :=
  let vsm : String × CheckStatus × Msg :=
    if check.id = "SVC-001" then ("", .ok, .text "모든 Deployment 정상")
    else if check.id = "SVC-002" then ("", .ok, .text "모든 StatefulSet 정상")
    else if check.id = "SVC-003" then ("", .ok, .text "모든 DaemonSet 정상")
    else if check.id = "SVC-004" then
      ("0", .ok, .text "Endpoint 없는 Service 없음")
    else if check.id = "SVC-005" then ("5", .ok, .text "5개 Ingress 확인")
    else if check.id = "SVC-006" then ("", .ok, .text "과다 재시작 Pod 없음")
    else if check.id = "SVC-007" then ("0", .ok, .text "Pending Pod 없음")
    else if check.id = "SVC-008" then ("0", .ok, .text "Failed Pod 없음")
    else if check.id = "SVC-009" then ("3", .ok, .text "3개 CronJob 확인")
    else if check.id = "SVC-010" then ("0", .ok, .text "Failed Job 없음")
    else ("N/A", .unknown, .text "데모 데이터 없음")
  { check_id := check.id, name := check.name, category := "Services",
    subcategory := env_name, description := check.description,
    status := vsm.2.1,
    value := if vsm.1 = "" then "모두 정상" else vsm.1,
    threshold := check.threshold, unit := check.unit, message := vsm.2.2,
    target := env_name ++ " Services", severity := check.severity }

/-! ### The category check loops and `run_all_checks` -/

/-- The server dict assembled by `run_all_checks`
(`{**node, 'category': '<ENV> Master/Worker'}`). -/
structure OsServer where
  name : String
  hostname : String
  ip : String
  ssh_port : ℕ
  category : String
deriving DecidableEq

/-- `CMPInfraChecker.check_os`.  Note `server.get('port', 22)`: the node
dicts carry `ssh_port`, not `port`, so the SSH port used here is always
the default 22. -/
def check_os (ex : Exec) (os_checks : List CheckDef) (demo : Bool)
    (servers : List OsServer) (env_name : String) : List CheckResult :=
  (servers.map (fun server =>
    os_checks.map (fun check =>
      if demo then
        run_demo_os_check check server.name server.category env_name
      else
        run_os_check ex check server.hostname server.ip 22 server.name
          server.category env_name))).flatten

/-- `CMPInfraChecker.check_k8s_cluster`: runs every cluster check against
the first master; empty result if the cluster or its master list is
missing. -/
def check_k8s_cluster (ex : Exec) (inv : Inventory)
    (k8s_checks : List CheckDef) (demo : Bool) (cluster_key : String) :
    List CheckResult :=
  match get_cluster_info inv cluster_key with
  | none => []
  | some cluster =>
      let env_name := cluster.env.getD (pyUpper cluster_key)
      match cluster.masters with
      | [] => []
      | master :: _ =>
          k8s_checks.map (fun check =>
            if demo then run_demo_k8s_check check env_name
            else
              run_k8s_check ex check master.hostname master.ip
                master.ssh_port env_name)

/-- `CMPInfraChecker.check_k8s_services`. -/
def check_k8s_services (ex : Exec) (inv : Inventory)
    (svc_checks : List CheckDef) (demo : Bool) (cluster_key : String) :
    List CheckResult :=
  match get_cluster_info inv cluster_key with
  | none => []
  | some cluster =>
      let env_name := cluster.env.getD (pyUpper cluster_key)
      match cluster.masters with
      | [] => []
      | master :: _ =>
          svc_checks.map (fun check =>
            if demo then run_demo_svc_check check env_name
            else
              run_svc_check ex check master.hostname master.ip
                master.ssh_port env_name)

/-- `CMPInfraChecker.check_cicd_services`: HTTP probe, falling back to a
raw TCP probe, per exposed service of each CI/CD server. -/
def check_cicd_services (ex : Exec) (inv : Inventory) (demo : Bool) :
    List CheckResult :=
  (inv.cicd_servers.map (fun kv =>
    let key := kv.1
    let server := kv.2
    server.services.map (fun service =>
      let svc_name := service.name
      let port := service.port
      let smv : CheckStatus × Msg × String :=
        if demo then (.ok, .text "서비스 정상 응답", "200 OK")
        else
          let url := "http://" ++ server.ip ++ ":" ++ toString port ++ "/"
          let probe := ex.check_http_status url
          if probe.1 then
            (.ok, .text "서비스 정상 응답", toString probe.2 ++ " OK")
          else if ex.check_tcp_port server.ip port then
            (.ok, .text "포트 응답 정상", "TCP " ++ toString port ++ " Open")
          else (.critical, .text "서비스 응답 없음", "연결 실패")
      { check_id := "CICD-" ++ pyTake (pyUpper key) 3,
        name := svc_name ++ " 서비스", category := "CI/CD",
        subcategory := "CI/CD 인프라",
        description := server.name ++ " " ++ svc_name ++ " 서비스 상태",
        status := smv.1, value := smv.2.2, threshold := none, unit := "",
        message := smv.2.1, target := server.name,
        severity := "critical" }))).flatten

/-- `CMPInfraChecker.check_databases`: TCP reachability per database
service. -/
def check_databases (ex : Exec) (inv : Inventory) (demo : Bool)
    (cluster_key : String) : List CheckResult :=
  match get_cluster_info inv cluster_key with
  | none => []
  | some cluster =>
      let env_name := cluster.env.getD (pyUpper cluster_key)
      (cluster.databases.map (fun db =>
        db.services.map (fun service =>
          let svc_name := service.name
          let port := service.port
          let smv : CheckStatus × Msg × String :=
            if demo then (.ok, .text "DB 연결 정상",
              "TCP " ++ toString port ++ " Open")
            else if ex.check_tcp_port db.ip port then
              (.ok, .text "DB 연결 정상", "TCP " ++ toString port ++ " Open")
            else (.critical, .text "DB 연결 실패", "연결 불가")
          { check_id := "DB-" ++ pyTake env_name 1 ++ pyLast db.name,
            name := svc_name ++ " 연결", category := "Database",
            subcategory := env_name,
            description := db.name ++ " " ++ svc_name ++ " 포트 연결 확인",
            status := smv.1, value := smv.2.2, threshold := none,
            unit := "", message := smv.2.1,
            target := env_name ++ " " ++ db.name,
            severity := "critical" }))).flatten

/-- The per-environment server list `run_all_checks` assembles:
masters tagged `"<ENV> Master"`, then workers tagged `"<ENV> Worker"`. -/
def clusterOsServers (cluster : Cluster) (env_label : String) :
    List OsServer :=
  cluster.masters.map (fun m =>
    { name := m.name, hostname := m.hostname, ip := m.ip,
      ssh_port := m.ssh_port, category := env_label ++ " Master" })
  ++ cluster.workers.map (fun w =>
    { name := w.name, hostname := w.hostname, ip := w.ip,
      ssh_port := w.ssh_port, category := env_label ++ " Worker" })

/-- One environment section of `run_all_checks`: fetch the cluster, and if
present (truthy) run host checks, cluster checks, workload checks and
database checks in that order; if absent, contribute nothing. -/
def clusterBlock (ex : Exec) (inv : Inventory) (cfg : ChecksConfig)
    (demo : Bool) (cluster_key env_label : String) : List CheckResult :=
  match get_cluster_info inv cluster_key with
  | none => []
  | some cluster =>
      check_os ex cfg.os_checks demo (clusterOsServers cluster env_label)
        env_label
      ++ check_k8s_cluster ex inv cfg.k8s_cluster_checks demo cluster_key
      ++ check_k8s_services ex inv cfg.k8s_service_checks demo cluster_key
      ++ check_databases ex inv demo cluster_key

/-- `CMPInfraChecker.run_all_checks`: CI/CD services first, then the DEV,
STG and PRD environments in that literal order. -/
def run_all_checks (ex : Exec) (inv : Inventory) (cfg : ChecksConfig)
    (demo : Bool) : List CheckResult :=
  check_cicd_services ex inv demo
  ++ clusterBlock ex inv cfg demo "dev_cluster" "DEV"
  ++ clusterBlock ex inv cfg demo "stg_cluster" "STG"
  ++ clusterBlock ex inv cfg demo "prd_cluster" "PRD"

/-! ### Concrete executors, checks and inventory for witnesses -/

/-- An executor whose every remote invocation fails with an error text. -/
def failExec : Exec :=
  { execute_ssh := fun host ip _ _ =>
      { success := false, host := host, ip := ip,
        error_message := "Connection timed out" },
    check_tcp_port := fun _ _ => false,
    check_http_status := fun _ => (false, 0) }

/-- An executor whose remote invocations succeed with a fixed four-line
output (four replica mismatches). -/
def fourLineExec : Exec :=
  { execute_ssh := fun host ip _ _ =>
      { success := true, host := host, ip := ip,
        stdout := "dep-a 1/2\ndep-b 0/3\ndep-c 2/5\ndep-d 0/1",
        return_code := 0 },
    check_tcp_port := fun _ _ => true,
    check_http_status := fun _ => (true, 200) }

/-- An executor whose remote invocations succeed with empty output. -/
def emptyOutExec : Exec :=
  { execute_ssh := fun host ip _ _ =>
      { success := true, host := host, ip := ip, stdout := "",
        return_code := 0 },
    check_tcp_port := fun _ _ => true,
    check_http_status := fun _ => (true, 200) }

/-- A host check with a numeric threshold. -/
def osCheck1 : CheckDef :=
  { id := "OS-001", name := "디스크 사용률", description := "루트 파티션 사용률",
    command := "df -h /", threshold := some 80, unit := "%" }

/-- A cluster check with an expected pattern. -/
def k8sCheck1 : CheckDef :=
  { id := "K8S-001", name := "노드 상태", description := "노드 Ready 상태",
    command := "kubectl get nodes", expected := some "Ready" }

/-- A workload check with the replica-mismatch evaluation type. -/
def replicaCheck : CheckDef :=
  { id := "SVC-001", name := "Deployment 복제본",
    description := "available != desired",
    command := "kubectl get deploy -A", check_type := "replica_match" }

/-- A one-master development cluster with one database. -/
def sampleCluster : Cluster :=
  { env := some "DEV",
    masters := [{ name := "dev-master-01", hostname := "dev-m1",
                  ip := "10.0.0.1", ssh_port := 22 }],
    workers := [],
    databases := [{ name := "devdb01", hostname := "dev-db1",
                    ip := "10.0.0.9",
                    services := [{ name := "MySQL", port := 3306 }] }] }

/-- An inventory whose staging cluster key is absent. -/
def sampleInventory : Inventory :=
  { dev_cluster := some sampleCluster, stg_cluster := none,
    prd_cluster := none,
    cicd_servers := [("jenkins",
      { name := "CI Server", hostname := "ci01", ip := "10.0.0.5",
        services := [{ name := "Jenkins", port := 8080 }] })] }

/-- A one-check-per-category catalog. -/
def sampleConfig : ChecksConfig :=
  { os_checks := [osCheck1], k8s_cluster_checks := [k8sCheck1],
    k8s_service_checks := [replicaCheck] }

/-! ## Theorems: evaluator claims -/

/-- Reduction of `evaluateThreshold` once the float parse is known. -/
theorem evaluateThreshold_eq_decision (output : String) (t : ℚ)
    (checkId : String) (v : ℚ)
    (hparse : parsePyFloat (trimChars (output.data.filter (fun c => c ≠ '%')))
      = some v) :
    evaluateThreshold output t checkId = thresholdDecision v t checkId := by
  unfold evaluateThreshold
  rw [hparse]

/-- **C1** (counterexample).  On the output
`"node1:Ready\nnode2:Ready\nnode3:NotReady"` with expected substring
`"Ready"`, the evaluator does **not** return CRITICAL: Python's `in`
substring test counts `"node3:NotReady"` as containing `"Ready"`, so all
3 of 3 records match, contradicting the claimed 2-of-3 count. -/
theorem c1_counterexample :
    (evaluateExpected "node1:Ready\nnode2:Ready\nnode3:NotReady" "Ready").1 ≠
      CheckStatus.critical
  ∧ ((expectedLines "node1:Ready\nnode2:Ready\nnode3:NotReady").filter
      (fun l => hasSub "Ready".data l)).length = 3 := by
  have h : evaluateExpected "node1:Ready\nnode2:Ready\nnode3:NotReady" "Ready"
      = (CheckStatus.ok, Msg.allNormal 3 3) := by with_unfolding_all rfl
  refine ⟨?_, by with_unfolding_all rfl⟩
  rw [h]
  simp

/-- **C1** (amended).  Expected-pattern evaluation applied to the output
`"node1:Ready\nnode2:Ready\nnode3:NotReady"` with expected substring
`"Ready"` produces status OK, counting 3 of 3 records as matching, with
the all-normal (3/3) message. -/
theorem c1_amended_eval :
    evaluateExpected "node1:Ready\nnode2:Ready\nnode3:NotReady" "Ready"
      = (CheckStatus.ok, Msg.allNormal 3 3) := by
  with_unfolding_all rfl

/-- **C3**.  For every check identifier in the fixed zero-is-healthy
allow-list, an output parsing to `v` yields: `v = 0` → OK; `0 < v ≤ 3` →
WARNING carrying the count; `v > 3` → CRITICAL carrying the count. -/
theorem c3_zero_is_healthy (checkId output : String) (t v : ℚ)
    (hmem : checkId ∈ zeroIsOk)
    (hparse : parsePyFloat (trimChars (output.data.filter (fun c => c ≠ '%')))
      = some v) :
    (v = 0 → evaluateThreshold output t checkId = (.ok, .text "정상"))
  ∧ (0 < v → v ≤ 3 →
      evaluateThreshold output t checkId = (.warning, .needsAttention v))
  ∧ (3 < v →
      evaluateThreshold output t checkId = (.critical, .immediateAction v)) := by
  rw [evaluateThreshold_eq_decision output t checkId v hparse]
  unfold thresholdDecision
  rw [if_pos hmem]
  refine ⟨fun h0 => by rw [if_pos h0], fun h1 h2 => ?_, fun h3 => ?_⟩
  · rw [if_neg (by linarith), if_pos h2]
  · rw [if_neg (by linarith), if_neg (by linarith)]

/-- **C3** (witness).  Concrete zero-is-healthy evaluations: `OS-005` with
outputs `"0"`, `"2"`, `"7"` and threshold 5. -/
theorem c3_witness :
    "OS-005" ∈ zeroIsOk
  ∧ evaluateThreshold "0" 5 "OS-005" = (.ok, .text "정상")
  ∧ evaluateThreshold "2" 5 "OS-005" = (.warning, .needsAttention 2)
  ∧ evaluateThreshold "7" 5 "OS-005" = (.critical, .immediateAction 7) := by
  have hmem : "OS-005" ∈ zeroIsOk := by decide
  have hp0 : parsePyFloat (trimChars (("0" : String).data.filter (fun c => c ≠ '%')))
      = some 0 := by with_unfolding_all rfl
  have hp2 : parsePyFloat (trimChars (("2" : String).data.filter (fun c => c ≠ '%')))
      = some 2 := by with_unfolding_all rfl
  have hp7 : parsePyFloat (trimChars (("7" : String).data.filter (fun c => c ≠ '%')))
      = some 7 := by with_unfolding_all rfl
  exact ⟨hmem,
    (c3_zero_is_healthy "OS-005" "0" 5 0 hmem hp0).1 rfl,
    (c3_zero_is_healthy "OS-005" "2" 5 2 hmem hp2).2.1 (by norm_num) (by norm_num),
    (c3_zero_is_healthy "OS-005" "7" 5 7 hmem hp7).2.2 (by norm_num)⟩

/-- **C4** (counterexample).  For the negative threshold `-10` and parsed
value `-9` (identifier `OS-001`, not zero-is-healthy), `v ≥ t` holds yet
the evaluator returns OK, not CRITICAL: the source tests
`value < threshold * 0.8` first, and `-9 < -8`. -/
theorem c4_counterexample :
    "OS-001" ∉ zeroIsOk
  ∧ parsePyFloat (trimChars (("-9" : String).data.filter (fun c => c ≠ '%')))
      = some (-9)
  ∧ (-10 : ℚ) ≤ -9
  ∧ (evaluateThreshold "-9" (-10) "OS-001").1 = CheckStatus.ok
  ∧ (evaluateThreshold "-9" (-10) "OS-001").1 ≠ CheckStatus.critical := by
  refine ⟨by decide, by with_unfolding_all rfl, by norm_num,
    by with_unfolding_all rfl, ?_⟩
  have h : (evaluateThreshold "-9" (-10) "OS-001").1 = CheckStatus.ok := by
    with_unfolding_all rfl
  rw [h]
  simp

/-- **C4** (amended).  For every numeric-threshold check whose identifier
is not in the zero-is-healthy set, with **nonnegative** threshold `t` and
parsed value `v`: OK ⟺ `v < t·0.8`, WARNING ⟺ `t·0.8 ≤ v < t`,
CRITICAL ⟺ `v ≥ t`. -/
theorem c4_magnitude_policy (checkId output : String) (t v : ℚ)
    (hmem : checkId ∉ zeroIsOk) (ht : 0 ≤ t)
    (hparse : parsePyFloat (trimChars (output.data.filter (fun c => c ≠ '%')))
      = some v) :
    ((evaluateThreshold output t checkId).1 = CheckStatus.ok ↔ v < t * 0.8)
  ∧ ((evaluateThreshold output t checkId).1 = CheckStatus.warning ↔
      t * 0.8 ≤ v ∧ v < t)
  ∧ ((evaluateThreshold output t checkId).1 = CheckStatus.critical ↔ t ≤ v) := by
  rw [evaluateThreshold_eq_decision output t checkId v hparse]
  unfold thresholdDecision
  rw [if_neg hmem]
  by_cases h1 : v < t * 0.8
  · rw [if_pos h1]
    refine ⟨by simpa using h1, ?_, ?_⟩
    · simp only [show (CheckStatus.ok, Msg.text "정상 범위").1 = CheckStatus.ok
        from rfl]
      constructor
      · intro h; cases h
      · rintro ⟨ha, -⟩; exact absurd h1 (not_lt.mpr ha)
    · simp only [show (CheckStatus.ok, Msg.text "정상 범위").1 = CheckStatus.ok
        from rfl]
      constructor
      · intro h; cases h
      · intro hle; exact absurd h1 (not_lt.mpr (by linarith))
  · rw [if_neg h1]
    by_cases h2 : v < t
    · rw [if_pos h2]
      refine ⟨?_, ?_, ?_⟩
      · constructor
        · intro h; cases h
        · intro hlt; exact absurd hlt h1
      · simpa using ⟨le_of_not_lt h1, h2⟩
      · constructor
        · intro h; cases h
        · intro hle; exact absurd h2 (not_lt.mpr hle)
    · rw [if_neg h2]
      refine ⟨?_, ?_, ?_⟩
      · constructor
        · intro h; cases h
        · intro hlt; exact absurd hlt h1
      · constructor
        · intro h; cases h
        · rintro ⟨-, hlt⟩; exact absurd hlt h2
      · simpa using le_of_not_lt h2

/-- **C4** (witness).  The spec's own examples at threshold 80:
45 → OK, 65 → WARNING, 85 → CRITICAL. -/
theorem c4_witness :
    (evaluateThreshold "45" 80 "OS-001").1 = CheckStatus.ok
  ∧ (evaluateThreshold "65" 80 "OS-001").1 = CheckStatus.warning
  ∧ (evaluateThreshold "85" 80 "OS-001").1 = CheckStatus.critical := by
  have hmem : "OS-001" ∉ zeroIsOk := by decide
  have h45 : parsePyFloat (trimChars (("45" : String).data.filter (fun c => c ≠ '%')))
      = some 45 := by with_unfolding_all rfl
  have h65 : parsePyFloat (trimChars (("65" : String).data.filter (fun c => c ≠ '%')))
      = some 65 := by with_unfolding_all rfl
  have h85 : parsePyFloat (trimChars (("85" : String).data.filter (fun c => c ≠ '%')))
      = some 85 := by with_unfolding_all rfl
  exact ⟨(c4_magnitude_policy "OS-001" "45" 80 45 hmem (by norm_num) h45).1.mpr
      (by norm_num),
    (c4_magnitude_policy "OS-001" "65" 80 65 hmem (by norm_num) h65).2.1.mpr
      ⟨by norm_num, by norm_num⟩,
    (c4_magnitude_policy "OS-001" "85" 80 85 hmem (by norm_num) h85).2.2.mpr
      (by norm_num)⟩

/-- **C5**.  The full expected-pattern contract: empty or `"N/A"` output →
UNKNOWN (no data); zero records after filtering → UNKNOWN (no targets);
otherwise with `n` records of which `k` match: `k = n` → OK,
`n·0.7 ≤ k < n` → WARNING, `k < n·0.7` → CRITICAL. -/
theorem c5_expected_pattern (output expected : String) :
    ((output = "" ∨ output = "N/A") →
       evaluateExpected output expected = (.unknown, .text "데이터 없음"))
  ∧ (¬(output = "" ∨ output = "N/A") → expectedLines output = [] →
       evaluateExpected output expected = (.unknown, .text "점검 대상 없음"))
  ∧ (¬(output = "" ∨ output = "N/A") → expectedLines output ≠ [] →
      ∀ n k, n = (expectedLines output).length →
        k = ((expectedLines output).filter
              (fun l => hasSub expected.data l)).length →
        ((k = n → evaluateExpected output expected = (.ok, .allNormal k n))
         ∧ ((n : ℚ) * 0.7 ≤ (k : ℚ) → k < n →
              evaluateExpected output expected = (.warning, .someIssue k n))
         ∧ ((k : ℚ) < (n : ℚ) * 0.7 →
              evaluateExpected output expected
                = (.critical, .manyIssue (n - k))))) := by
  refine ⟨fun h => ?_, fun h hnil => ?_, fun h hne n k hn hk => ?_⟩
  · unfold evaluateExpected
    rw [if_pos h]
  · unfold evaluateExpected
    rw [if_neg h]
    simp only [hnil, List.isEmpty_nil, if_pos]
  · unfold evaluateExpected
    rw [if_neg h]
    have hbe : (expectedLines output).isEmpty = false := by
      simpa [List.isEmpty_iff] using hne
    simp only [hbe, Bool.false_eq_true, if_false]
    subst hn hk
    refine ⟨fun hkn => by rw [if_pos hkn], fun hge hlt => ?_, fun hsmall => ?_⟩
    · rw [if_neg (Nat.ne_of_lt hlt), if_pos hge]
    · have hq : ((List.filter (fun l => hasSub expected.data l)
          (expectedLines output)).length : ℚ) < ((expectedLines output).length : ℚ) := by
        have h07 : ((expectedLines output).length : ℚ) * 0.7
            ≤ ((expectedLines output).length : ℚ) := by
          have : (0 : ℚ) ≤ ((expectedLines output).length : ℚ) := Nat.cast_nonneg _
          linarith
        linarith
      have hltn : (List.filter (fun l => hasSub expected.data l)
          (expectedLines output)).length < (expectedLines output).length := by
        exact_mod_cast hq
      rw [if_neg (Nat.ne_of_lt hltn), if_neg (not_le.mpr hsmall)]

/-- **C5** (witness).  Concrete evaluations exercising every branch of the
expected-pattern contract. -/
theorem c5_witness :
    evaluateExpected "" "Ready" = (.unknown, .text "데이터 없음")
  ∧ evaluateExpected " " "Ready" = (.unknown, .text "점검 대상 없음")
  ∧ evaluateExpected "a:Up\nb:Up" "Up" = (.ok, .allNormal 2 2)
  ∧ evaluateExpected
      "a:Up\nb:Dn\nc:Up\nd:Up\ne:Up\nf:Up\ng:Up\nh:Up\ni:Up\nj:Up" "Up"
      = (.warning, .someIssue 9 10)
  ∧ evaluateExpected "a:Dn\nb:Dn\nc:Up" "Up" = (.critical, .manyIssue 2) := by
  refine ⟨(c5_expected_pattern "" "Ready").1 (Or.inl rfl),
    (c5_expected_pattern " " "Ready").2.1 (by simp) (by with_unfolding_all rfl),
    ?_, ?_, ?_⟩
  · have h := ((c5_expected_pattern "a:Up\nb:Up" "Up").2.2 (by simp)
      (by with_unfolding_all decide) 2 2 (by with_unfolding_all rfl)
      (by with_unfolding_all rfl)).1 rfl
    exact h
  · have h := ((c5_expected_pattern
      "a:Up\nb:Dn\nc:Up\nd:Up\ne:Up\nf:Up\ng:Up\nh:Up\ni:Up\nj:Up" "Up").2.2
      (by simp) (by with_unfolding_all decide) 10 9 (by with_unfolding_all rfl)
      (by with_unfolding_all rfl)).2.1 (by norm_num) (by norm_num)
    exact h
  · have h := ((c5_expected_pattern "a:Dn\nb:Dn\nc:Up" "Up").2.2 (by simp)
      (by with_unfolding_all decide) 3 1 (by with_unfolding_all rfl)
      (by with_unfolding_all rfl)).2.2 (by norm_num)
    exact h

/-! ## Theorems: aggregation and exit-code claims -/

/-- Incrementing one status field raises the four-field sum by one. -/
theorem sum4_incr (c : StatusCounts) (s : CheckStatus) :
    sum4 (c.incr s) = sum4 c + 1 := by
  cases s <;> simp [StatusCounts.incr, sum4] <;> omega

/-- After `bumpGroup m key s`, looking up `key` finds its previous counts
(zeros if absent) with status `s` incremented. -/
theorem findCounts_bumpGroup_self (m : List (String × StatusCounts))
    (key : String) (s : CheckStatus) :
    findCounts (bumpGroup m key s) key
      = some (((findCounts m key).getD StatusCounts.zero).incr s) := by
  induction m with
  | nil => simp [bumpGroup, findCounts]
  | cons p rest ih =>
      obtain ⟨k, c⟩ := p
      by_cases h : k = key
      · simp [bumpGroup, findCounts, h]
      · simp [bumpGroup, findCounts, h, ih]

/-- `bumpGroup` leaves every other key's counts unchanged. -/
theorem findCounts_bumpGroup_ne (m : List (String × StatusCounts))
    (key key' : String) (s : CheckStatus) (h : key' ≠ key) :
    findCounts (bumpGroup m key s) key' = findCounts m key' := by
  have h' : ¬key = key' := fun he => h he.symm
  induction m with
  | nil => simp [bumpGroup, findCounts, h']
  | cons p rest ih =>
      obtain ⟨k, c⟩ := p
      by_cases hk : k = key
      · subst hk
        simp [bumpGroup, findCounts, h']
      · simp [bumpGroup, findCounts, hk, ih]

/-- Invariant of the grouping fold: the four-field sum at any key grows by
exactly the number of folded outcomes carrying that key. -/
theorem foldl_bump_findCounts (f : CheckResult → String)
    (rs : List CheckResult) (m : List (String × StatusCounts)) (key : String) :
    sum4 ((findCounts
        (rs.foldl (fun acc r => bumpGroup acc (f r) r.status) m) key).getD
          StatusCounts.zero)
      = sum4 ((findCounts m key).getD StatusCounts.zero)
        + (rs.filter (fun r => f r = key)).length := by
  induction rs generalizing m with
  | nil => simp
  | cons r t ih =>
      simp only [List.foldl_cons, List.filter_cons]
      by_cases h : f r = key
      · rw [ih, h, findCounts_bumpGroup_self]
        simp [sum4_incr, h]
        omega
      · have hne : key ≠ f r := fun he => h he.symm
        rw [ih, findCounts_bumpGroup_ne _ _ _ _ hne]
        simp [h]

/-- `bumpGroup` raises the total mass of the grouping dict by one. -/
theorem totalMass_bumpGroup (m : List (String × StatusCounts)) (key : String)
    (s : CheckStatus) :
    totalMass (bumpGroup m key s) = totalMass m + 1 := by
  induction m with
  | nil =>
      cases s <;>
        simp [bumpGroup, totalMass, sum4, StatusCounts.zero, StatusCounts.incr]
  | cons p rest ih =>
      obtain ⟨k, c⟩ := p
      by_cases h : k = key
      · simp [bumpGroup, totalMass, h, sum4_incr]
        omega
      · simp [bumpGroup, totalMass, h] at ih ⊢
        omega

/-- The grouping fold adds one unit of mass per folded outcome. -/
theorem totalMass_foldl_bump (f : CheckResult → String)
    (rs : List CheckResult) (m : List (String × StatusCounts)) :
    totalMass (rs.foldl (fun acc r => bumpGroup acc (f r) r.status) m)
      = totalMass m + rs.length := by
  induction rs generalizing m with
  | nil => simp
  | cons r t ih =>
      simp only [List.foldl_cons, List.length_cons]
      rw [ih, totalMass_bumpGroup]
      omega

/-- The four per-status counts partition the outcome list. -/
theorem length_eq_sum_countStatus (rs : List CheckResult) :
    countStatus rs .ok + countStatus rs .warning + countStatus rs .critical
      + countStatus rs .unknown = rs.length := by
  induction rs with
  | nil => rfl
  | cons r t ih =>
      simp only [countStatus, List.filter_cons, List.length_cons] at ih ⊢
      cases hr : r.status <;> simp [hr] <;> omega

/-- **C7**.  Any summary produced by `get_summary` satisfies:
OK + WARNING + CRITICAL + UNKNOWN = total; in each environment group and
each category group the four counts sum to the number of outcomes carrying
that group's key; and the group totals of either grouping sum back to the
overall total. -/
theorem c7_summary_counts (rs : List CheckResult) (s : Summary)
    (h : get_summary rs = some s) :
    s.ok + s.warning + s.critical + s.unknown = s.total
  ∧ (∀ key c, findCounts s.by_environment key = some c →
      sum4 c = (rs.filter (fun r => r.subcategory = key)).length)
  ∧ (∀ key c, findCounts s.by_category key = some c →
      sum4 c = (rs.filter (fun r => r.category = key)).length)
  ∧ totalMass s.by_environment = s.total
  ∧ totalMass s.by_category = s.total := by
  unfold get_summary at h
  by_cases hemp : rs.isEmpty
  · rw [if_pos hemp] at h
    cases h
  · rw [if_neg hemp] at h
    have hs := Option.some.inj h
    subst hs
    refine ⟨length_eq_sum_countStatus rs, ?_, ?_, ?_, ?_⟩
    · intro key c hc
      simp only [groupCounts] at hc
      have hmass := foldl_bump_findCounts (fun r => r.subcategory) rs [] key
      rw [hc] at hmass
      simpa [findCounts, sum4, StatusCounts.zero] using hmass
    · intro key c hc
      simp only [groupCounts] at hc
      have hmass := foldl_bump_findCounts (fun r => r.category) rs [] key
      rw [hc] at hmass
      simpa [findCounts, sum4, StatusCounts.zero] using hmass
    · simpa [groupCounts, totalMass] using
        totalMass_foldl_bump (fun r => r.subcategory) rs []
    · simpa [groupCounts, totalMass] using
        totalMass_foldl_bump (fun r => r.category) rs []

/-- **C7** (witness).  The sum identities instantiated on a concrete
four-outcome list. -/
theorem c7_witness :
    get_summary sampleResults = some sampleSummary
  ∧ sampleSummary.ok + sampleSummary.warning + sampleSummary.critical
      + sampleSummary.unknown = sampleSummary.total
  ∧ sum4 ⟨1, 1, 0, 0⟩
      = (sampleResults.filter (fun r => r.subcategory = "DEV")).length
  ∧ totalMass sampleSummary.by_environment = sampleSummary.total
  ∧ totalMass sampleSummary.by_category = sampleSummary.total := by
  have hsum : get_summary sampleResults = some sampleSummary := by rfl
  have hc := c7_summary_counts sampleResults sampleSummary hsum
  exact ⟨hsum, hc.1, hc.2.1 "DEV" ⟨1, 1, 0, 0⟩ (by rfl), hc.2.2.2.1, hc.2.2.2.2⟩

/-- **C8** (counterexample).  In `--json` mode `main()` returns before the
exit-code branch, so the process exits 0 even though the outcome list
contains a CRITICAL outcome — the claim's "exit code 2 when any CRITICAL"
does not hold of the process unconditionally. -/
theorem c8_counterexample :
    critSample.status = CheckStatus.critical
  ∧ mainExitCode true [critSample] = some 0
  ∧ mainExitCode true [critSample] ≠ some 2 := by
  refine ⟨rfl, rfl, ?_⟩
  intro hcontra
  have h0 : mainExitCode true [critSample] = some 0 := rfl
  rw [h0] at hcontra
  cases hcontra

/-- **C8** (amended).  In non-JSON mode, for a nonempty outcome list, the
exit code is 0 with no WARNING/CRITICAL outcomes, 1 with a WARNING but no
CRITICAL, 2 with any CRITICAL; it is a function of the WARNING and
CRITICAL counts alone, so UNKNOWN outcomes never affect it. -/
theorem c8_exit_code (rs : List CheckResult) (h : rs ≠ []) :
    (countStatus rs .critical = 0 → countStatus rs .warning = 0 →
       mainExitCode false rs = some 0)
  ∧ (countStatus rs .critical = 0 → 0 < countStatus rs .warning →
       mainExitCode false rs = some 1)
  ∧ (0 < countStatus rs .critical → mainExitCode false rs = some 2)
  ∧ (∀ rs' : List CheckResult, rs' ≠ [] →
       countStatus rs' .critical = countStatus rs .critical →
       countStatus rs' .warning = countStatus rs .warning →
       mainExitCode false rs' = mainExitCode false rs) := by
  have key : ∀ l : List CheckResult, l ≠ [] →
      mainExitCode false l
        = some (if 0 < countStatus l .critical then 2
                else if 0 < countStatus l .warning then 1 else 0) := by
    intro l hl
    have hemp : l.isEmpty = false := by
      cases l with
      | nil => exact absurd rfl hl
      | cons a t => rfl
    simp [mainExitCode, get_summary, hemp]
  refine ⟨?_, ?_, ?_, ?_⟩
  · intro hc hw
    rw [key rs h, hc, hw]
    simp
  · intro hc hw
    rw [key rs h, hc]
    simp [hw]
  · intro hc
    rw [key rs h, if_pos hc]
  · intro rs' h' hcc hww
    rw [key rs' h', key rs h, hcc, hww]

/-- **C8** (witness).  One CRITICAL outcome in non-JSON mode exits 2. -/
theorem c8_witness : mainExitCode false [critSample] = some 2 :=
  (c8_exit_code [critSample] (List.cons_ne_nil _ _)).2.2.1 (by decide)

/-- **C10**.  On an empty outcome list `get_summary` returns the bare
empty dict (modelled `none`) — not a `Summary` record with zero counts. -/
theorem c10_empty_summary : get_summary ([] : List CheckResult) = none := rfl

/-! ## Theorems: transport failure, replica match, environment skip -/

/-- **C2**.  Whenever the runner reports failure, each of the three
remote-command check paths (host, cluster, workload) produces an outcome
with status UNKNOWN, the `"N/A"` placeholder value, and the runner's error
text (or the branch's generic failure message when that text is empty),
regardless of the check's evaluation policy. -/
theorem c2_transport_failure_unknown (ex : Exec) (check : CheckDef)
    (hostname ip : String) (port : ℕ)
    (server_name category env_name : String)
    (hfail : (ex.execute_ssh hostname ip check.command port).success = false) :
    ((run_os_check ex check hostname ip port server_name category
        env_name).status = CheckStatus.unknown
     ∧ (run_os_check ex check hostname ip port server_name category
        env_name).value = "N/A"
     ∧ (run_os_check ex check hostname ip port server_name category
        env_name).message = .text (orDefault
          (ex.execute_ssh hostname ip check.command port).error_message
          "연결 실패"))
  ∧ ((run_k8s_check ex check hostname ip port env_name).status
        = CheckStatus.unknown
     ∧ (run_k8s_check ex check hostname ip port env_name).value = "N/A"
     ∧ (run_k8s_check ex check hostname ip port env_name).message
        = .text (orDefault
          (ex.execute_ssh hostname ip check.command port).error_message
          "kubectl 실행 실패"))
  ∧ ((run_svc_check ex check hostname ip port env_name).status
        = CheckStatus.unknown
     ∧ (run_svc_check ex check hostname ip port env_name).value = "N/A"
     ∧ (run_svc_check ex check hostname ip port env_name).message
        = .text (orDefault
          (ex.execute_ssh hostname ip check.command port).error_message
          "점검 실패")) := by
  refine ⟨⟨?_, ?_, ?_⟩, ⟨?_, ?_, ?_⟩, ⟨?_, ?_, ?_⟩⟩ <;>
    simp [run_os_check, run_k8s_check, run_svc_check, hfail]

/-- **C2** (witness).  A failing executor yields UNKNOWN / `"N/A"` on all
three check paths for a concrete check. -/
theorem c2_witness :
    (failExec.execute_ssh "node1" "10.0.0.1" osCheck1.command 22).success
      = false
  ∧ (run_os_check failExec osCheck1 "node1" "10.0.0.1" 22 "dev-node"
      "DEV Master" "DEV").status = CheckStatus.unknown
  ∧ (run_os_check failExec osCheck1 "node1" "10.0.0.1" 22 "dev-node"
      "DEV Master" "DEV").value = "N/A"
  ∧ (run_k8s_check failExec osCheck1 "node1" "10.0.0.1" 22 "DEV").status
      = CheckStatus.unknown
  ∧ (run_svc_check failExec osCheck1 "node1" "10.0.0.1" 22 "DEV").status
      = CheckStatus.unknown := by
  have h := c2_transport_failure_unknown failExec osCheck1 "node1"
    "10.0.0.1" 22 "dev-node" "DEV Master" "DEV" rfl
  exact ⟨rfl, h.1.1, h.1.2.1, h.2.1.1, h.2.2.1⟩

/-- **C6**.  For a replica-mismatch workload check with a successful
command: empty or whitespace-only output yields OK with the fixed
all-normal value and message; otherwise the newline-split line count `n`
yields WARNING when `n ≤ 3` and CRITICAL when `n > 3`, with the mismatch
count in the message. -/
theorem c6_replica_match (ex : Exec) (check : CheckDef)
    (hostname ip : String) (port : ℕ) (env_name : String)
    (hok : (ex.execute_ssh hostname ip check.command port).success = true)
    (htype : check.check_type = "replica_match") :
    (trimChars (ex.execute_ssh hostname ip check.command port).stdout.data
        = [] →
       (run_svc_check ex check hostname ip port env_name).status
          = CheckStatus.ok
       ∧ (run_svc_check ex check hostname ip port env_name).value
          = "모두 정상"
       ∧ (run_svc_check ex check hostname ip port env_name).message
          = .text "모든 리소스 정상")
  ∧ (trimChars (ex.execute_ssh hostname ip check.command port).stdout.data
        ≠ [] →
      ((splitNl (trimChars
          (ex.execute_ssh hostname ip check.command port).stdout.data)).length
          ≤ 3 →
        (run_svc_check ex check hostname ip port env_name).status
            = CheckStatus.warning
        ∧ (run_svc_check ex check hostname ip port env_name).message
            = .mismatchCount (splitNl (trimChars
                (ex.execute_ssh hostname ip
                  check.command port).stdout.data)).length)
      ∧ (3 < (splitNl (trimChars
          (ex.execute_ssh hostname ip check.command port).stdout.data)).length →
        (run_svc_check ex check hostname ip port env_name).status
            = CheckStatus.critical
        ∧ (run_svc_check ex check hostname ip port env_name).message
            = .mismatchCount (splitNl (trimChars
                (ex.execute_ssh hostname ip
                  check.command port).stdout.data)).length)) := by
  refine ⟨fun hempty => ?_, fun hne => ⟨fun hle => ?_, fun hgt => ?_⟩⟩
  · have hcond : ¬((ex.execute_ssh hostname ip check.command port).stdout ≠ ""
        ∧ trimChars
          (ex.execute_ssh hostname ip check.command port).stdout.data ≠ []) :=
      fun hc => hc.2 hempty
    simp [run_svc_check, hok, htype, hcond]
    rfl
  · have hv : (ex.execute_ssh hostname ip check.command port).stdout ≠ "" := by
      intro he
      apply hne
      rw [he]
      rfl
    simp [run_svc_check, hok, htype, hv, hne, hle]
  · have hv : (ex.execute_ssh hostname ip check.command port).stdout ≠ "" := by
      intro he
      apply hne
      rw [he]
      rfl
    have hnle : ¬(splitNl (trimChars
        (ex.execute_ssh hostname ip check.command port).stdout.data)).length
        ≤ 3 := Nat.not_le.mpr hgt
    simp [run_svc_check, hok, htype, hv, hne, hnle]

/-- **C6** (witness).  A successful four-mismatch-line output yields
CRITICAL with count 4; a successful empty output yields OK with the fixed
all-normal value. -/
theorem c6_witness :
    (fourLineExec.execute_ssh "m1" "10.0.0.1" replicaCheck.command
      22).success = true
  ∧ (run_svc_check fourLineExec replicaCheck "m1" "10.0.0.1" 22
      "DEV").status = CheckStatus.critical
  ∧ (run_svc_check fourLineExec replicaCheck "m1" "10.0.0.1" 22
      "DEV").message = Msg.mismatchCount 4
  ∧ (run_svc_check emptyOutExec replicaCheck "m1" "10.0.0.1" 22
      "DEV").status = CheckStatus.ok
  ∧ (run_svc_check emptyOutExec replicaCheck "m1" "10.0.0.1" 22
      "DEV").value = "모두 정상" := by
  have h4 := c6_replica_match fourLineExec replicaCheck "m1" "10.0.0.1" 22
    "DEV" rfl rfl
  have he := c6_replica_match emptyOutExec replicaCheck "m1" "10.0.0.1" 22
    "DEV" rfl rfl
  have hne : trimChars (fourLineExec.execute_ssh "m1" "10.0.0.1"
      replicaCheck.command 22).stdout.data ≠ [] := by decide
  have hgt : 3 < (splitNl (trimChars (fourLineExec.execute_ssh "m1"
      "10.0.0.1" replicaCheck.command 22).stdout.data)).length := by decide
  have hcrit := (h4.2 hne).2 hgt
  have hok := he.1 (by decide)
  exact ⟨rfl, by simpa using hcrit.1, by simpa using hcrit.2, hok.1,
    hok.2.1⟩

/-- **C9**.  A cluster key whose inventory entry is absent (falsy)
contributes zero outcomes to the run; with the staging cluster absent the
full run is exactly the CI/CD, DEV and PRD parts; and the other parts do
not depend on the staging slot at all.  `run_all_checks` being a total
function, no exception is raised. -/
theorem c9_absent_env_skip (ex : Exec) (inv : Inventory)
    (cfg : ChecksConfig) (demo : Bool) :
    (∀ key env_label, get_cluster_info inv key = none →
       clusterBlock ex inv cfg demo key env_label = [])
  ∧ (inv.stg_cluster = none →
       run_all_checks ex inv cfg demo
         = check_cicd_services ex inv demo
           ++ clusterBlock ex inv cfg demo "dev_cluster" "DEV"
           ++ clusterBlock ex inv cfg demo "prd_cluster" "PRD")
  ∧ (∀ x : Option Cluster,
       check_cicd_services ex { inv with stg_cluster := x } demo
         = check_cicd_services ex inv demo
       ∧ clusterBlock ex { inv with stg_cluster := x } cfg demo
           "dev_cluster" "DEV"
         = clusterBlock ex inv cfg demo "dev_cluster" "DEV"
       ∧ clusterBlock ex { inv with stg_cluster := x } cfg demo
           "prd_cluster" "PRD"
         = clusterBlock ex inv cfg demo "prd_cluster" "PRD") := by
  refine ⟨fun key env_label hk => ?_, fun h => ?_, fun x => ?_⟩
  · simp [clusterBlock, hk]
  · have hstg : clusterBlock ex inv cfg demo "stg_cluster" "STG" = [] := by
      simp [clusterBlock, get_cluster_info, h]
    simp [run_all_checks, hstg]
  · obtain ⟨d, s, p, ci⟩ := inv
    exact ⟨rfl, rfl, rfl⟩

/-- **C9** (witness).  On a concrete inventory missing its staging
cluster, the staging block is empty and the run decomposes into the
remaining parts. -/
theorem c9_witness :
    get_cluster_info sampleInventory "stg_cluster" = none
  ∧ clusterBlock failExec sampleInventory sampleConfig false "stg_cluster"
      "STG" = []
  ∧ run_all_checks failExec sampleInventory sampleConfig false
      = check_cicd_services failExec sampleInventory false
        ++ clusterBlock failExec sampleInventory sampleConfig false
            "dev_cluster" "DEV"
        ++ clusterBlock failExec sampleInventory sampleConfig false
            "prd_cluster" "PRD" := by
  have h := c9_absent_env_skip failExec sampleInventory sampleConfig false
  exact ⟨rfl, h.1 "stg_cluster" "STG" rfl, h.2.1 rfl⟩

end InfraCheck
